import Mathlib

/-!
Verification of the ICS-Honeypot specification against its source.

The file shallow-embeds the parts of the repository that the frozen claims
are about:

* `MB`     — the Modbus/TCP emulator (`src/client/plc/modbus_plc.py`):
             per-unit register/coil images, `_handle_modbus_function`, and the
             per-request portion of `_handle_client` (logging and framing).
* `AgentStart` — the agent's device-start path (`src/client/agent.py`,
             `_start_plcs`) together with the Python keyword-argument calling
             convention of the `ModbusPLC` / `S7PLC` constructors.
* `Sim`    — the config-driven simulator (`src/client/plc/simulation.py`):
             the holding-register part of `ConfigDrivenSimulator.update_storage`,
             `_generate_value`, `_encode_string`, and the PM5300 post-hook.
* `S7`     — the S7comm emulator (`src/client/plc/s7_plc.py`): device profiles,
             the COTP Connection-Request slot check, `_read_data`, and the
             Read-Variable (function 0x04) job handler.
* `Server` — the server control plane (`src/server/main.py` `heartbeat` and
             `src/server/database.py` agent registry operations).

Bytes are modelled as natural numbers; multi-byte fields are big-endian.
`struct.pack` is modelled as a partial function (`Option`) because the Python
original raises `struct.error` on out-of-range arguments, which aborts the
handler.  Time- and randomness-dependent waveform values and IEEE-754 float
encoding are abstracted as oracle parameters: no claim in scope depends on the
numeric value of a waveform sample or a float encoding, only on *which* cells
are written.
-/

/-- Big-endian 16-bit value from two bytes (`struct.unpack` of a `>H` field). -/
def u16 (hi lo : Nat) : Nat := hi * 256 + lo

/-- `struct.pack` of a `B` field: one byte; raises (`none`) when out of range. -/
def packU8 (n : Nat) : Option (List Nat) :=
  if n < 256 then some [n] else none

/-- `struct.pack` of a `>H` field: two big-endian bytes; raises (`none`) when
out of range. -/
def packU16 (n : Nat) : Option (List Nat) :=
  if n < 65536 then some [n / 256, n % 256] else none

/-- Point update of a partial map, as mutation of a Python dict entry. -/
def updF {α : Type} (f : Nat → Option α) (k : Nat) (v : α) : Nat → Option α :=
  fun x => if x = k then some v else f x

/-- ASCII bytes of a string (`str.encode` for the ASCII range; the source only
feeds ASCII model names and decimal renderings through it). -/
def strBytes (s : String) : List Nat :=
  (s.data.filter (fun ch => ch.toNat < 128)).map Char.toNat

namespace MB

/-- One logical device behind the gateway: an entry of `ModbusPLC.devices`. -/
structure Device where
  unit_id : Nat
  model : String

/-- The per-unit storage dict `self.storage[unit_id]`.  The Modbus handler
creates it with only the `coils` and `holding_registers` keys; the
`input_registers` map is written exclusively by the simulator
(`ConfigDrivenSimulator.update_storage`) and is carried here because the
Read-Input-Registers claim refers to it.  The handler itself never reads it. -/
structure UnitStorage where
  coils : Nat → Option Bool
  holding_registers : Nat → Option Nat
  input_registers : Nat → Option Nat

def UnitStorage.empty : UnitStorage :=
  ⟨fun _ => none, fun _ => none, fun _ => none⟩

/-- `self.storage`: unit id → per-unit maps. -/
def Storage : Type := Nat → Option UnitStorage

/-- `if unit_id not in self.storage: self.storage[unit_id] = {...}`. -/
def ensureUnit (s : Storage) (u : Nat) : Storage :=
  fun v => if v = u then some ((s u).getD UnitStorage.empty) else s v

def setUnit (s : Storage) (u : Nat) (us : UnitStorage) : Storage :=
  fun v => if v = u then some us else s v

/-- Read of a holding register as the handler performs it:
`self.storage[unit]['holding_registers'].get(addr, 0)`. -/
def hrGet (s : Storage) (u a : Nat) : Nat :=
  (((s u).getD UnitStorage.empty).holding_registers a).getD 0

/-- Read of an input register from the simulator-maintained image. -/
def irGet (s : Storage) (u a : Nat) : Nat :=
  (((s u).getD UnitStorage.empty).input_registers a).getD 0

/-- The Read-Coils status bytes: `quantity` coils starting at `start`, packed
LSB-first into `byteCount` bytes, absent coils reading as false. -/
def coilBytes (c : Nat → Option Bool) (start q byteCount : Nat) : List Nat :=
  (List.range byteCount).map (fun bi =>
    (List.range q).foldl (fun acc i =>
      if i / 8 = bi && (c (start + i)).getD false then acc ||| (1 <<< (i % 8)) else acc) 0)

/-- The Read-Holding-Registers body loop: for `i` in `range q`, append
`struct.pack('>H', storage.get(start+i, 0))`. -/
def regData (hr : Nat → Option Nat) (start : Nat) : Nat → Option (List Nat)
  | 0 => some []
  | q + 1 => do
      let pre ← regData hr start q
      let v ← packU16 ((hr (start + q)).getD 0)
      pure (pre ++ v)

/-- `struct.pack('BB', func_code + 0x80, code)`: Modbus exception PDU. -/
def exceptionPDU (fc code : Nat) : Option (List Nat) := do
  pure ((← packU8 (fc + 128)) ++ (← packU8 code))

/-- `ModbusPLC._handle_modbus_function`.  `data` is the PDU after the function
code; the result is the response PDU (`none` when the Python original raises,
which closes the connection) together with the updated storage. -/
def handleModbusFunction (devices : Nat → Option Device) (fc : Nat)
    (data : List Nat) (unit : Nat) (s0 : Storage) : Option (List Nat) × Storage :=
  let s := ensureUnit s0 unit
  let us := (s unit).getD UnitStorage.empty
  if fc = 1 then
    if 4 ≤ data.length then
      let start := u16 (data.getD 0 0) (data.getD 1 0)
      let q := u16 (data.getD 2 0) (data.getD 3 0)
      let bc := (q + 7) / 8
      ((do pure ((← packU8 fc) ++ (← packU8 bc) ++ coilBytes us.coils start q bc)), s)
    else (exceptionPDU fc 1, s)
  else if fc = 3 then
    if 4 ≤ data.length then
      let start := u16 (data.getD 0 0) (data.getD 1 0)
      let q := u16 (data.getD 2 0) (data.getD 3 0)
      let bc := q * 2
      ((do pure ((← packU8 fc) ++ (← packU8 bc) ++ (← regData us.holding_registers start q))), s)
    else (exceptionPDU fc 1, s)
  else if fc = 2 then
    if 4 ≤ data.length then
      let q := u16 (data.getD 2 0) (data.getD 3 0)
      let bc := (q + 7) / 8
      ((do pure ((← packU8 fc) ++ (← packU8 bc) ++ List.replicate bc 0)), s)
    else (exceptionPDU fc 1, s)
  else if fc = 4 then
    if 4 ≤ data.length then
      let q := u16 (data.getD 2 0) (data.getD 3 0)
      let bc := q * 2
      ((do pure ((← packU8 fc) ++ (← packU8 bc) ++ (List.replicate q ([0, 0] : List Nat)).flatten)), s)
    else (exceptionPDU fc 1, s)
  else if fc = 5 then
    if 4 ≤ data.length then
      let addr := u16 (data.getD 0 0) (data.getD 1 0)
      let valRaw := u16 (data.getD 2 0) (data.getD 3 0)
      let val := valRaw = 65280
      let s' := setUnit s unit { us with coils := updF us.coils addr val }
      ((do pure ((← packU8 fc) ++ data.take 4)), s')
    else (exceptionPDU fc 1, s)
  else if fc = 6 then
    if 4 ≤ data.length then
      let addr := u16 (data.getD 0 0) (data.getD 1 0)
      let val := u16 (data.getD 2 0) (data.getD 3 0)
      let s' := setUnit s unit { us with holding_registers := updF us.holding_registers addr val }
      ((do pure ((← packU8 fc) ++ data.take 4)), s')
    else (exceptionPDU fc 1, s)
  else if fc = 17 then
    let model := match devices unit with
      | some d => d.model
      | none => "Unknown Device"
    let serverId := strBytes model
    let bc := serverId.length + 1
    ((do pure ((← packU8 fc) ++ (← packU8 bc) ++ serverId ++ [255])), s)
  else if fc = 43 then
    if 3 ≤ data.length && data.getD 0 0 = 14 then
      let readCode := data.getD 1 0
      let model := match devices unit with
        | some d => d.model
        | none => "Unknown Device"
      let objects : List (Nat × List Nat) :=
        [(0, strBytes "Schneider Electric"), (1, strBytes model), (2, strBytes "V1.0.0")]
      ((do
        let objData ← objects.foldlM (fun acc p => do
          pure (acc ++ (← packU8 p.1) ++ (← packU8 p.2.length) ++ p.2)) []
        let hdr ← packU8 fc
        let rc ← packU8 readCode
        pure (hdr ++ [14] ++ rc ++ [1, 0, 0, 3] ++ objData)), s)
    else (exceptionPDU fc 1, s)
  else (exceptionPDU fc 1, s)

/-- Dispatch as done in `_handle_client` line 136: route to
`_handle_modbus_function` when the unit id is mapped, otherwise answer
Gateway Path Unavailable (0x0A). -/
def dispatchPDU (devices : Nat → Option Device) (fc : Nat) (data : List Nat)
    (unit : Nat) (s0 : Storage) : Option (List Nat) × Storage :=
  if (devices unit).isSome then handleModbusFunction devices fc data unit s0
  else (exceptionPDU fc 10, s0)

/-- Observable actions of one `_handle_client` loop iteration. -/
inductive Event where
  | log (request response : List Nat)
  | send (frame : List Nat)
  deriving DecidableEq, Repr

/-- `struct.pack('>HHHB', trans_id, proto_id, response_length, unit_id)`. -/
def respHeaderBytes (trans proto respLen unit : Nat) : Option (List Nat) := do
  let t ← packU16 trans
  let p ← packU16 proto
  let l ← packU16 respLen
  let ub ← packU8 unit
  pure (t ++ p ++ l ++ ub)

/-- One request/response iteration of `ModbusPLC._handle_client` with a log
database attached (the agent always constructs one).  `header` is the 7-byte
MBAP header, `pdu` the `length - 1` bytes that follow.  Returns the emitted
events in order together with the updated storage; `none` when the Python
original raises before reaching the log call (empty PDU, or a `struct.error`
while building the response PDU). -/
def handleRequest (devices : Nat → Option Device) (s0 : Storage)
    (header pdu : List Nat) : Option (List Event × Storage) :=
  match pdu with
  | [] => none
  | fc :: rest =>
    let trans := u16 (header.getD 0 0) (header.getD 1 0)
    let proto := u16 (header.getD 2 0) (header.getD 3 0)
    let unit := header.getD 6 0
    let fullRequest := header ++ pdu
    let r := dispatchPDU devices fc rest unit s0
    match r.1 with
    | none => none
    | some respPdu =>
      let ev0 := Event.log fullRequest respPdu
      match respHeaderBytes trans proto (1 + respPdu.length) unit with
      | none => some ([ev0], r.2)
      | some respHeader => some ([ev0, Event.send (respHeader ++ respPdu)], r.2)

/-- Fixture: a gateway hosting unit 1 only. -/
def devices1 : Nat → Option Device :=
  fun u => if u = 1 then some ⟨1, "PM5300"⟩ else none

/-- Fixture: storage with no units yet. -/
def mbEmpty : Storage := fun _ => none

/-- Fixture: storage where the simulator has written value 5 into input
register 0 of unit 1 (reachable through one `update_storage` tick of a
configuration with a `fixed`-wave input-register entry). -/
def irStorage : Storage :=
  fun u => if u = 1 then
    some { UnitStorage.empty with input_registers := fun a => if a = 0 then some 5 else none }
  else none

end MB

namespace AgentStart

/-- Keyword parameters accepted by `ModbusPLC.__init__` (`modbus_plc.py` line 8,
`self` excluded). -/
def modbusInitParams : List String := ["port", "db", "model", "devices"]

/-- Keyword parameters accepted by `S7PLC.__init__` (`s7_plc.py` line 78). -/
def s7InitParams : List String := ["port", "db", "model", "simulation_config"]

/-- Keyword arguments the agent passes to `ModbusPLC(...)`
(`agent.py` lines 106-114). -/
def agentModbusKwargs : List String :=
  ["port", "db", "model", "vendor", "revision", "devices", "simulation_config"]

/-- Keyword arguments the agent passes to `S7PLC(...)` (`agent.py` 121-126). -/
def agentS7Kwargs : List String := ["port", "db", "model", "simulation_config"]

/-- Python keyword-call semantics for a function without `**kwargs`: the call
raises `TypeError` unless every given keyword names an accepted parameter. -/
def kwargsAccepted (params given : List String) : Bool :=
  given.all (params.contains ·)

/-- One entry of the agent config's `plcs` list, as read by `_start_plcs`. -/
structure PlcConf where
  enabled : Bool
  ptype : String

/-- Attempt to start one configured device (`_start_plcs` loop body for an
enabled entry).  `portOk` abstracts the OS outcome of binding the port for
the S7 branch; the Modbus branch never reaches `plc.start()` because the
constructor call is checked first.  Returns the type tag appended to
`self.plcs` on success; `none` when an exception was caught. -/
def startOne (portOk : Bool) (c : PlcConf) : Option String :=
  if c.ptype = "modbus" then
    if kwargsAccepted modbusInitParams agentModbusKwargs then some "modbus" else none
  else if c.ptype = "s7comm" then
    if kwargsAccepted s7InitParams agentS7Kwargs && portOk then some "s7comm" else none
  else none

/-- `NodeAgent._start_plcs`: fold over the configured devices, returning the
started-PLC list, `success_count` and `total_enabled`.  `env i` abstracts
whether binding the i-th entry's port would succeed. -/
def startPlcs (env : Nat → Bool) : List PlcConf → Nat → List String × Nat × Nat
  | [], _ => ([], 0, 0)
  | c :: cs, i =>
    let rest := startPlcs env cs (i + 1)
    if c.enabled then
      match startOne (env i) c with
      | some t => (t :: rest.1, rest.2.1 + 1, rest.2.2 + 1)
      | none => (rest.1, rest.2.1, rest.2.2 + 1)
    else rest

end AgentStart

namespace Sim

/-- One holding-register entry of a simulation config, with the fields the
holding-register loop of `update_storage` reads (`cfg.get` defaults
materialized).  `type?` models `cfg.get("type")`; `length` models
`cfg.get("length", 10)` for string entries. -/
structure SimCfg where
  addr : Nat
  wave : String
  value : Int := 0
  min : Int := 0
  type? : Option String := none
  length : Nat := 10
  deriving DecidableEq, Repr

/-- `storage[unit_id]['holding_registers']`: address → stored value, `none`
when the key is absent. -/
def HReg : Type := Nat → Option Int

/-- `storage[unit_id]['coils']`. -/
def CoilMap : Type := Nat → Option Bool

/-- The waveform tags of `_generate_value` whose numeric result depends on
time or randomness. -/
def timeWaves : List String := ["sine", "sawtooth", "triangle", "random_walk", "counter", "noise"]

/-- `ConfigDrivenSimulator._generate_value` (lines 409-466): `fixed` yields the
declared value, `static` yields `None` (do not overwrite), the time- or
randomness-driven waveforms yield a number abstracted here by the oracle
`env wave addr` (their float formulas are irrelevant to the claims in scope),
and an unrecognized wave yields 0. -/
def genValue (env : String → Nat → Int) (cfg : SimCfg) : Option Int :=
  if cfg.wave = "fixed" then some cfg.value
  else if cfg.wave = "static" then none
  else if timeWaves.contains cfg.wave then some (env cfg.wave cfg.addr)
  else some 0

/-- `_encode_string`: ASCII-encode, truncate or zero-pad to `length * 2`
bytes, and pack consecutive byte pairs as big-endian 16-bit register values. -/
def encodeStringRegs (text : String) (len : Nat) : List Int :=
  let bs := strBytes text
  let bs := if len * 2 < bs.length then bs.take (len * 2)
            else bs ++ List.replicate (len * 2 - bs.length) 0
  (List.range len).map (fun j => (Int.ofNat (bs.getD (2 * j) 0 * 256 + bs.getD (2 * j + 1) 0)))

/-- `for i, r_val in enumerate(regs): storage[addr + i] = r_val`. -/
def writeRegs (hr : HReg) (addr : Nat) : List Int → HReg
  | [] => hr
  | v :: vs => writeRegs (updF hr addr v) (addr + 1) vs

/-- The holding-register loop body of `update_storage` (lines 612-641) for one
entry.  `encF32` abstracts `_encode_float32` (IEEE-754 big-endian split into
two 16-bit halves). -/
def processHR (env : String → Nat → Int) (encF32 : Int → Int × Int)
    (hr : HReg) (cfg : SimCfg) : HReg :=
  match genValue env cfg with
  | none =>
      if (hr cfg.addr).isSome then hr else updF hr cfg.addr cfg.min
  | some v =>
      if cfg.type? = some "float32" then
        let p := encF32 v
        updF (updF hr cfg.addr p.1) (cfg.addr + 1) p.2
      else if cfg.type? = some "string" then
        writeRegs hr cfg.addr (encodeStringRegs (toString v) cfg.length)
      else updF hr cfg.addr v

/-- The full holding-register loop of `update_storage`. -/
def loopHR (env : String → Nat → Int) (encF32 : Int → Int × Int) :
    List SimCfg → HReg → HReg
  | [], hr => hr
  | c :: cs, hr => loopHR env encF32 cs (processHR env encF32 hr c)

/-- `for addr in [...]: if addr in regs: regs[addr] = 0`. -/
def zeroIfPresent (hr : HReg) (a : Nat) : HReg :=
  if (hr a).isSome then updF hr a 0 else hr

/-- `_handle_pm5300_command` (lines 519-597).  `ctDiff hi lo` abstracts
"decoding registers 2012/2013 as float32 (clamped to 100.0 when ≤ 0) differs
from 100.0 by more than 0.1"; `ctScale` abstracts the float32 rescaling of the
current readings at 3000/3002/3004.  Both are pure floating-point computations
that no claim in scope depends on. -/
def pm5300Hook (ctDiff : Int → Int → Bool) (ctScale : HReg → HReg)
    (hr : HReg) (coils : CoilMap) : HReg :=
  let cmd := (hr 5000).getD 0
  let hr1 := if cmd = 2020 then
      let hrA := if (hr 3200).isSome then updF (updF hr 3200 0) 3201 0 else hr
      updF (updF hrA 5002 0) 5000 0
    else hr
  let hr2 := if (coils 0).getD false then
      [3020, 3021, 3022, 3023, 3024, 3025].foldl zeroIfPresent hr1
    else hr1
  if (hr2 2012).isSome && (hr2 2013).isSome
      && ctDiff ((hr2 2012).getD 0) ((hr2 2013).getD 0) then
    ctScale hr2
  else hr2

/-- The holding-register effect of one `update_storage` tick (lines 599-671):
run the holding-register loop, then the PM5300 post-hook when the config
declares address 5000.  `coils` is the coil map the hook reads (the coil loop
of `update_storage` has already run; it never touches holding registers). -/
def updateStorageHR (env : String → Nat → Int) (encF32 : Int → Int × Int)
    (ctDiff : Int → Int → Bool) (ctScale : HReg → HReg)
    (cfgs : List SimCfg) (hr : HReg) (coils : CoilMap) : HReg :=
  let hr' := loopHR env encF32 cfgs hr
  if cfgs.any (fun c => c.addr = 5000) then pm5300Hook ctDiff ctScale hr' coils else hr'

/-- The holding-register addresses the loop body can touch for one entry:
its own address always, the second float32 half, and the string span. -/
def writesWithin (c : SimCfg) (a : Nat) : Prop :=
  a = c.addr ∨
  (c.type? = some "float32" ∧ a = c.addr + 1) ∨
  (c.type? = some "string" ∧ c.addr ≤ a ∧ a < c.addr + c.length)

instance (c : SimCfg) (a : Nat) : Decidable (writesWithin c a) := by
  unfold writesWithin; infer_instance

/-- Fixture oracles for concrete evaluations. -/
def envZero : String → Nat → Int := fun _ _ => 0

def encF32Zero : Int → Int × Int := fun _ => (0, 0)

def ctDiffFalse : Int → Int → Bool := fun _ _ => false

def ctScaleId : HReg → HReg := fun h => h

/-- Fixture: a PM5300-style config where the command register 5000 and the
energy counters 3200/3201 are `static` (so they hold attacker-written
values). -/
def pmCfgs : List SimCfg :=
  [{ addr := 5000, wave := "static" }, { addr := 3200, wave := "static" },
   { addr := 3201, wave := "static" }]

/-- Fixture: the attacker has written command code 2020 into register 5000 and
value 7 into the static registers 3200/3201. -/
def pmHr : HReg :=
  fun a => if a = 5000 then some 2020 else if a = 3200 then some 7
           else if a = 3201 then some 7 else none

def noCoils : CoilMap := fun _ => none

end Sim

namespace S7

/-- A device-model profile (`S7PLC.PROFILES`). -/
structure S7Profile where
  validSlots : List Nat
  orderCode : String
  moduleName : String
  maxPdu : Nat
  systemName : String
  serialNumber : String
  plantId : String
  oemId : String
  location : String
  deriving DecidableEq, Repr

def profileS7_300 : S7Profile :=
  ⟨[2], "6ES7 315-2AG10-0AB0", "CPU 315-2 DP", 240, "S7-300 Station",
   "S C-C2UR28922013", "Factory_Main_Unit", "Siemens", "Rack 0 Slot 2"⟩

def profileS7_1200 : S7Profile :=
  ⟨[1], "6ES7 214-1AG40-0XB0", "CPU 1214C", 480, "S7-1200 Station",
   "S C-C2UR28922014", "Plant_Unit_1200", "Siemens", "Rack 0 Slot 1"⟩

def profileS7_1500 : S7Profile :=
  ⟨[1], "6ES7 511-1AK01-0AB0", "CPU 1511-1 PN", 960, "S7-1500 Station",
   "S C-C2UR28922015", "Siemens", "Plant_Unit_1500", "Rack 0 Slot 1"⟩

/-- Python `sub in s` substring test (over the underlying character lists). -/
def hasSub (s sub : String) : Bool :=
  (List.range (s.data.length + 1)).any
    (fun i => ((s.data.drop i).take sub.data.length) == sub.data)

/-- Profile selection in `S7PLC.__init__` (lines 84-90): `"1200" in model` →
S7-1200, else `"1500" in model` → S7-1500, else S7-300. -/
def profileFor (model : String) : S7Profile :=
  if hasSub model "1200" then profileS7_1200
  else if hasSub model "1500" then profileS7_1500
  else profileS7_300

/-- The COTP CR parameter scan (lines 480-503): walk the TLV parameters from
index 7; a Called-TSAP parameter (code 0xC2) with at least two bytes whose
second byte's lower 5 bits name a valid slot sets `valid_connection`.  The
fuel argument (passed as `cotpLen + 1`) bounds the loop; the index advances by
at least 2 per iteration so the guard `idx < cotpLen + 1` always fails first. -/
def paramScan (slots : List Nat) (data : List Nat) (cotpLen : Nat) :
    Nat → Nat → Bool → Bool
  | 0, _, valid => valid
  | fuel + 1, idx, valid =>
    if idx < cotpLen + 1 then
      if data.length ≤ idx + 1 then valid
      else
        let pcode := data.getD idx 0
        let plen := data.getD (idx + 1) 0
        if data.length < idx + 2 + plen then valid
        else
          let pval := (data.drop (idx + 2)).take plen
          let valid' :=
            if pcode = 194 then
              if 2 ≤ pval.length then
                if slots.contains ((pval.getD 1 0) &&& 31) then true else valid
              else valid
            else valid
          paramScan slots data cotpLen fuel (idx + 2 + plen) valid'
    else valid

/-- Outcome of handling one COTP Connection Request: the wire response, the
`s7.action` metadata attached to the log record (the handler logs on both
paths), and whether the handler leaves the read loop (socket closed). -/
structure CRResult where
  response : List Nat
  action : Option String
  closed : Bool
  deriving DecidableEq, Repr

/-- The COTP CR branch of `_handle_client` (lines 463-533), `data` being the
bytes after the TPKT header (so `data[1] = 0xE0`). -/
def handleCR (profile : S7Profile) (data : List Nat) : CRResult :=
  let cotpLen := data.getD 0 0
  let srcRef := if 6 ≤ data.length then [data.getD 4 0, data.getD 5 0] else [0, 0]
  let valid := paramScan profile.validSlots data cotpLen (cotpLen + 1) 7 false
  if valid then
    { response := [3, 0, 0, 22] ++ [17, 208] ++ srcRef ++ [0, 2, 0]
        ++ [192, 1, 10, 193, 2, 1, 0, 194, 2, 1, 2],
      action := none, closed := false }
  else
    { response := [3, 0, 0, 11] ++ [6, 128] ++ srcRef ++ [0, 0] ++ [1],
      action := some "reject_connection", closed := true }

/-- The S7 memory image (`S7PLC.storage`): resizable per-number DB buffers and
three fixed 65536-byte areas. -/
structure S7Storage where
  db : Nat → Option (List Nat)
  m : Nat → Nat
  i : Nat → Nat
  q : Nat → Nat

def S7Storage.empty : S7Storage :=
  ⟨fun _ => none, fun _ => 0, fun _ => 0, fun _ => 0⟩

/-- `S7PLC._ensure_db`: create the DB buffer zero-filled at `minSize`, or
zero-extend it to `minSize` when shorter. -/
def ensureDB (st : S7Storage) (dbNum minSize : Nat) : S7Storage × List Nat :=
  match st.db dbNum with
  | none =>
      let buf := List.replicate minSize 0
      ({ st with db := updF st.db dbNum buf }, buf)
  | some buf =>
      if buf.length < minSize then
        let buf' := buf ++ List.replicate (minSize - buf.length) 0
        ({ st with db := updF st.db dbNum buf' }, buf')
      else (st, buf)

/-- Slice of a fixed 65536-byte area; zero-filled when out of range. -/
def readFixed (f : Nat → Nat) (start len : Nat) : List Nat :=
  if start + len ≤ 65536 then (List.range len).map (fun j => f (start + j))
  else List.replicate len 0

/-- `S7PLC._read_data` (lines 127-154): area 0x84 = DB (ensuring the buffer),
0x83 = M, 0x81 = I, 0x82 = Q; any other area reads as zeros. -/
def readData (st : S7Storage) (area dbNum start len : Nat) : List Nat × S7Storage :=
  if area = 132 then
    let p := ensureDB st dbNum (start + len)
    (if start + len ≤ p.2.length then (p.2.drop start).take len else List.replicate len 0, p.1)
  else if area = 131 then (readFixed st.m start len, st)
  else if area = 129 then (readFixed st.i start len, st)
  else if area = 130 then (readFixed st.q start len, st)
  else (List.replicate len 0, st)

/-- Byte length of one Read-Variable item from its transport type
(lines 717-726). -/
def dataLenBytes (transport readLen : Nat) : Nat :=
  if transport = 1 then (readLen + 7) / 8
  else if transport = 2 then readLen
  else if transport = 4 then readLen * 2
  else readLen

/-- The Read-Variable (function 0x04, syntax id 0x12) branch of
`_handle_client` (lines 682-766).  `s7data` is the S7 PDU (starting at the
protocol id byte); the result is the full TPKT frame of the Ack-Data response
(`none` when the branch does not produce a response or a `struct.pack`
raises) together with the updated image. -/
def handleReadVar (st : S7Storage) (s7data : List Nat) : Option (List Nat) × S7Storage :=
  let paramLen := u16 (s7data.getD 6 0) (s7data.getD 7 0)
  let param := (s7data.drop 10).take paramLen
  if param.getD 0 0 = 4 ∧ 2 < param.length ∧ param.getD 2 0 = 18 then
    let itemCount := param.getD 1 0
    if 1 ≤ itemCount then
      if 14 ≤ param.length then
        let transport := param.getD 5 0
        let readLen := u16 (param.getD 6 0) (param.getD 7 0)
        let dbNum := u16 (param.getD 8 0) (param.getD 9 0)
        let area := param.getD 10 0
        let addrInt := (param.getD 11 0) * 65536 + (param.getD 12 0) * 256 + param.getD 13 0
        let byteIndex := addrInt / 8
        let n := dataLenBytes transport readLen
        let p := readData st area dbNum byteIndex n
        let pduRef := (s7data.drop 4).take 2
        let respTrans := if transport = 1 then 3 else 4
        let resp? : Option (List Nat) := do
          let bits ← packU16 (n * 8)
          let respData := [255, respTrans] ++ bits ++ p.1
          let pl ← packU16 2
          let dl ← packU16 respData.length
          let s7resp := [50, 3, 0, 0] ++ pduRef ++ pl ++ dl ++ [0, 0] ++ [4, 1] ++ respData
          let tl ← packU16 (4 + 3 + s7resp.length)
          pure ([3, 0] ++ tl ++ [2, 240, 128] ++ s7resp)
        (resp?, p.2)
      else (none, st)
    else (none, st)
  else (none, st)

/-- Fixture: one 12-byte Read-Variable item. -/
def rvItem (transport l0 l1 d0 d1 area a0 a1 a2 : Nat) : List Nat :=
  [18, 10, 16, transport, l0, l1, d0, d1, area, a0, a1, a2]

/-- Fixture: a two-item Read-Variable job (both items: one byte of DB1 at
offset 0). -/
def twoItemJob : List Nat :=
  [50, 1, 0, 0, 0, 0, 0, 26, 0, 0]
    ++ ([4, 2] ++ rvItem 2 0 1 0 1 132 0 0 0 ++ rvItem 2 0 1 0 1 132 0 0 0)

end S7

namespace Server

/-- The parts of an agent's stored `config_json` that the server control plane
reads or writes: its own node id, the server URL, the device list (entries
opaque to the server), and the adoption-tracking `original_id`. -/
structure AgentConf where
  node_id : String
  server_url : String := "http://localhost:8000"
  plcs : List Nat := []
  original_id : Option String := none
  deriving DecidableEq, Repr

/-- One row of the server's `agents` table. -/
structure AgentRow where
  node_id : String
  name : String
  ip : String
  last_heartbeat : Nat
  status : String
  config : AgentConf
  is_active : Nat
  deriving DecidableEq, Repr

/-- `ServerDB.get_agent`: node_id is the primary key. -/
def getAgent (dbase : List AgentRow) (nid : String) : Option AgentRow :=
  dbase.find? (fun a => a.node_id == nid)

/-- `ServerDB.register_agent` (lines 53-91): `INSERT OR REPLACE`, preserving
`is_active` for an existing row and defaulting it to 0 (inactive) for a new
one. -/
def registerAgent (dbase : List AgentRow) (nid nm ip : String) (now : Nat)
    (config : AgentConf) : List AgentRow :=
  let act := match getAgent dbase nid with
    | some a => a.is_active
    | none => 0
  (dbase.filter (fun a => a.node_id != nid)) ++ [⟨nid, nm, ip, now, "Online", config, act⟩]

/-- `ServerDB.update_heartbeat`: set last-seen and status for the row. -/
def updateHeartbeat (dbase : List AgentRow) (nid : String) (now : Nat) : List AgentRow :=
  dbase.map (fun a =>
    if a.node_id == nid then { a with last_heartbeat := now, status := "Online" } else a)

/-- `ServerDB.toggle_agent_active`. -/
def toggleAgentActive (dbase : List AgentRow) (nid : String) (isActive : Bool) : List AgentRow :=
  dbase.map (fun a =>
    if a.node_id == nid then { a with is_active := if isActive then 1 else 0 } else a)

/-- A heartbeat request body. -/
structure HB where
  node_id : String
  ip : String
  name : String
  config : Option AgentConf

/-- A heartbeat response body. -/
structure HBResp where
  status : String
  command : String
  new_node_id : Option String
  deriving DecidableEq, Repr

/-- The `/api/heartbeat` endpoint (`server/main.py` lines 42-96): unknown
node_id → adoption scan, else auto-registration (inactive) answering
`start`; known node_id → update last-seen and answer `stop` iff the active
flag is 0.  The stored config is never modified on the known-node path. -/
def heartbeat (dbase : List AgentRow) (now : Nat) (hb : HB) : HBResp × List AgentRow :=
  match getAgent dbase hb.node_id with
  | none =>
    match dbase.find? (fun a => a.config.original_id == some hb.node_id) with
    | some adopted =>
        ({ status := "adopted", command := "stop", new_node_id := some adopted.node_id }, dbase)
    | none =>
        let pending : AgentConf :=
          { node_id := hb.node_id, server_url := "http://localhost:8000",
            plcs := [], original_id := some hb.node_id }
        ({ status := "registered", command := "start", new_node_id := none },
         registerAgent dbase hb.node_id ("Pending (" ++ hb.node_id ++ ")") hb.ip now pending)
  | some a =>
    ({ status := "ok", command := if a.is_active = 0 then "stop" else "start",
       new_node_id := none },
     updateHeartbeat dbase hb.node_id now)

/-- Fixture: a stored agent `X` with no devices configured and active flag 1. -/
def rowX : AgentRow :=
  ⟨"X", "Agent X", "10.0.0.1", 0, "Online", { node_id := "X", plcs := [] }, 1⟩

/-- Fixture: a heartbeat from `X` carrying a non-empty device list. -/
def hbX : HB :=
  ⟨"X", "10.0.0.1", "Agent X", some { node_id := "X", plcs := [7] }⟩

end Server

/-! ## Theorems -/

theorem u16_split (A : Nat) : u16 (A / 256) (A % 256) = A := by
  unfold u16; omega

namespace MB

theorem hrGet_ensureUnit (s : Storage) (u v a : Nat) :
    hrGet (ensureUnit s u) v a = hrGet s v a := by
  unfold hrGet ensureUnit
  by_cases h : v = u <;> simp [h]

theorem regData_spec (hr : Nat → Option Nat) (start q : Nat)
    (hb : ∀ i, i < q → (hr (start + i)).getD 0 < 65536) :
    ∃ L, regData hr start q = some L ∧ L.length = 2 * q ∧
      (∀ i, i < q → L.getD (2 * i) 0 = (hr (start + i)).getD 0 / 256 ∧
                    L.getD (2 * i + 1) 0 = (hr (start + i)).getD 0 % 256) := by
  induction q with
  | zero => exact ⟨[], rfl, rfl, fun i hi => absurd hi (Nat.not_lt_zero i)⟩
  | succ q ih =>
    obtain ⟨L, hL, hlen, hget⟩ := ih (fun i hi => hb i (Nat.lt_succ_of_lt hi))
    have hv : (hr (start + q)).getD 0 < 65536 := hb q (Nat.lt_succ_self q)
    refine ⟨L ++ [(hr (start + q)).getD 0 / 256, (hr (start + q)).getD 0 % 256], ?_, ?_, ?_⟩
    · simp [regData, hL, packU16, hv]
    · simp [hlen]; omega
    · intro i hi
      rcases Nat.lt_succ_iff_lt_or_eq.mp hi with hi' | rfl
      · have h1 : 2 * i < L.length := by omega
        have h2 : 2 * i + 1 < L.length := by omega
        rw [List.getD_append _ _ _ _ h1, List.getD_append _ _ _ _ h2]
        exact hget i hi'
      · constructor
        · rw [List.getD_append_right _ _ _ _ (by omega : L.length ≤ 2 * i)]
          simp [hlen]
        · rw [List.getD_append_right _ _ _ _ (by omega : L.length ≤ 2 * i + 1)]
          have : 2 * i + 1 - L.length = 1 := by omega
          simp [this]

theorem hr_after_fc6 (devices : Nat → Option Device) (unit A V a : Nat) (s0 : Storage) :
    (((handleModbusFunction devices 6 [A / 256, A % 256, V / 256, V % 256] unit s0).2 unit).getD
        UnitStorage.empty).holding_registers a
      = if a = A then some V else ((s0 unit).getD UnitStorage.empty).holding_registers a := by
  simp only [handleModbusFunction]
  norm_num [setUnit, ensureUnit, updF, List.getD, u16_split]

theorem fc6_response (devices : Nat → Option Device) (unit A V : Nat) (s0 : Storage) :
    (handleModbusFunction devices 6 [A / 256, A % 256, V / 256, V % 256] unit s0).1
      = some [6, A / 256, A % 256, V / 256, V % 256] := by
  simp only [handleModbusFunction]
  norm_num [packU8, List.take]

/-- C1.  For any Modbus device state, an FC6 (Write Single Register) request
writing value `V` to address `A`, followed immediately (no intervening
simulator write) by an FC3 (Read Holding Registers) request covering `A`,
returns `V` at `A`'s position.  The state threaded between the two calls is
the emulator instance's shared `self.storage`, which all connection handler
threads use, so the property holds whether the two requests arrive on the same
or on different TCP connections. -/
theorem fc6_write_then_fc3_read (devices : Nat → Option Device) (s0 : Storage)
    (unit A V S q : Nat) (hdev : (devices unit).isSome = true)
    (_hA : A < 65536) (hV : V < 65536) (hq : q * 2 < 256)
    (hSA : S ≤ A) (hAq : A < S + q)
    (hvals : ∀ a, hrGet s0 unit a < 65536) :
    (dispatchPDU devices 6 [A / 256, A % 256, V / 256, V % 256] unit s0).1 =
        some [6, A / 256, A % 256, V / 256, V % 256] ∧
    ∃ L, (dispatchPDU devices 3 [S / 256, S % 256, q / 256, q % 256] unit
            (dispatchPDU devices 6 [A / 256, A % 256, V / 256, V % 256] unit s0).2).1 =
          some (3 :: q * 2 :: L) ∧
      L.getD (2 * (A - S)) 0 = V / 256 ∧ L.getD (2 * (A - S) + 1) 0 = V % 256 := by
  have hdisp : ∀ fc data s, dispatchPDU devices fc data unit s
      = handleModbusFunction devices fc data unit s := by
    intro fc data s; simp [dispatchPDU, hdev]
  simp only [hdisp]
  refine ⟨fc6_response devices unit A V s0, ?_⟩
  set s1 := (handleModbusFunction devices 6 [A / 256, A % 256, V / 256, V % 256] unit s0).2
    with hs1
  have hmap : ∀ a, ((s1 unit).getD UnitStorage.empty).holding_registers a
      = if a = A then some V else ((s0 unit).getD UnitStorage.empty).holding_registers a :=
    fun a => hr_after_fc6 devices unit A V a s0
  have hb : ∀ i, i < q →
      ((((s1 unit).getD UnitStorage.empty).holding_registers (S + i)).getD 0) < 65536 := by
    intro i hi
    rw [hmap]
    by_cases h : S + i = A
    · simp [h, hV]
    · simpa [h, hrGet] using hvals (S + i)
  obtain ⟨L, hL, hlen, hget⟩ :=
    regData_spec (((s1 unit).getD UnitStorage.empty).holding_registers) S q hb
  have hi : A - S < q := by omega
  have hv1 := (hget (A - S) hi).1
  have hv2 := (hget (A - S) hi).2
  have hSA' : S + (A - S) = A := by omega
  rw [hSA', hmap A, if_pos rfl] at hv1 hv2
  refine ⟨L, ?_, by simpa using hv1, by simpa using hv2⟩
  simp only [handleModbusFunction]
  norm_num [ensureUnit, List.getD, u16_split, packU8, hq, hL]

/-- C1 witness: write 12345 to register 0 of unit 1, read it back. -/
theorem fc6_write_then_fc3_read_witness :
    (dispatchPDU devices1 6 [0, 0, 48, 57] 1 mbEmpty).1 = some [6, 0, 0, 48, 57] ∧
    ∃ L, (dispatchPDU devices1 3 [0, 0, 0, 1] 1
            (dispatchPDU devices1 6 [0, 0, 48, 57] 1 mbEmpty).2).1 = some (3 :: 2 :: L) ∧
      L.getD 0 0 = 48 ∧ L.getD 1 0 = 57 := by
  have h := fc6_write_then_fc3_read devices1 mbEmpty 1 0 12345 0 1 rfl
    (by norm_num) (by norm_num) (by norm_num) (Nat.le_refl 0) (by norm_num)
    (fun a => by norm_num [hrGet, mbEmpty, UnitStorage.empty])
  norm_num at h
  simpa [List.getD] using h

/-- C4 amended.  Each accepted Modbus request produces exactly one log record,
emitted before the response is sent on the wire; the record carries the full
raw request frame (MBAP header plus PDU) but only the response PDU (without
its MBAP header); the frame subsequently sent is an MBAP header followed by
exactly that logged PDU. -/
theorem modbus_one_log_before_send (devices : Nat → Option Device) (s0 : Storage)
    (header pdu : List Nat) (evs : List Event)
    (h : (handleRequest devices s0 header pdu).map Prod.fst = some evs) :
    ∃ respPdu respHeader,
      evs = [Event.log (header ++ pdu) respPdu] ∨
      evs = [Event.log (header ++ pdu) respPdu, Event.send (respHeader ++ respPdu)] := by
  cases pdu with
  | nil => simp [handleRequest] at h
  | cons fc rest =>
    simp only [handleRequest] at h
    cases hr1 : (dispatchPDU devices fc rest (header.getD 6 0) s0).1 with
    | none => simp only [hr1] at h; simp at h
    | some respPdu =>
      simp only [hr1] at h
      cases hh : respHeaderBytes (u16 (header.getD 0 0) (header.getD 1 0))
          (u16 (header.getD 2 0) (header.getD 3 0)) (1 + respPdu.length) (header.getD 6 0) with
      | none =>
        simp only [hh, Option.map_some', Option.some.injEq] at h
        exact ⟨respPdu, [], Or.inl h.symm⟩
      | some rh =>
        simp only [hh, Option.map_some', Option.some.injEq] at h
        exact ⟨respPdu, rh, Or.inr h.symm⟩

/-- C4 witness: a concrete FC3 request through the full per-request handler. -/
theorem modbus_one_log_before_send_witness :
    ∃ respPdu respHeader,
      [Event.log ([0, 1, 0, 0, 0, 6, 1] ++ [3, 0, 0, 0, 1]) [3, 2, 0, 0],
       Event.send [0, 1, 0, 0, 0, 5, 1, 3, 2, 0, 0]]
        = [Event.log ([0, 1, 0, 0, 0, 6, 1] ++ [3, 0, 0, 0, 1]) respPdu] ∨
      [Event.log ([0, 1, 0, 0, 0, 6, 1] ++ [3, 0, 0, 0, 1]) [3, 2, 0, 0],
       Event.send [0, 1, 0, 0, 0, 5, 1, 3, 2, 0, 0]]
        = [Event.log ([0, 1, 0, 0, 0, 6, 1] ++ [3, 0, 0, 0, 1]) respPdu,
           Event.send (respHeader ++ respPdu)] :=
  modbus_one_log_before_send devices1 mbEmpty [0, 1, 0, 0, 0, 6, 1] [3, 0, 0, 0, 1] _ rfl

/-- C4 counterexample.  For a concrete accepted request the log record's
response field is the bare response PDU `[3, 2, 0, 0]`, while the full raw
response frame (MBAP header plus PDU) is the sent frame
`[0, 1, 0, 0, 0, 5, 1, 3, 2, 0, 0]`; the two differ, so the record does not
contain the full raw response frame as claimed. -/
theorem modbus_log_lacks_response_mbap_counterexample :
    (handleRequest devices1 mbEmpty [0, 1, 0, 0, 0, 6, 1] [3, 0, 0, 0, 1]).map Prod.fst =
      some [Event.log [0, 1, 0, 0, 0, 6, 1, 3, 0, 0, 0, 1] [3, 2, 0, 0],
            Event.send [0, 1, 0, 0, 0, 5, 1, 3, 2, 0, 0]] ∧
    ([3, 2, 0, 0] : List Nat) ≠ [0, 1, 0, 0, 0, 5, 1, 3, 2, 0, 0] :=
  ⟨rfl, by decide⟩

/-- C5 counterexample.  An FC16 (Write Multiple Registers) request writing one
register (value 5 to address 0) is answered with the exception PDU
`[0x90, 0x01]` (Illegal Function) — not the claimed normal `start ++ qty`
body — and a subsequent FC3 read of address 0 still returns 0: nothing was
written. -/
theorem fc16_not_implemented_counterexample :
    (dispatchPDU devices1 16 [0, 0, 0, 1, 2, 0, 5] 1 mbEmpty).1 = some [144, 1] ∧
    144 &&& 128 ≠ 0 ∧
    (dispatchPDU devices1 3 [0, 0, 0, 1] 1
        (dispatchPDU devices1 16 [0, 0, 0, 1, 2, 0, 5] 1 mbEmpty).2).1 =
      some [3, 2, 0, 0] :=
  ⟨rfl, by decide, rfl⟩

/-- C5 amended.  Function code 16 has no handler branch: every FC16 request to
a mapped unit falls through to the default case, is answered with exception
PDU `{0x90, 0x01}` (Illegal Function), and leaves every holding register of
every unit unchanged. -/
theorem fc16_illegal_function (devices : Nat → Option Device) (data : List Nat)
    (unit : Nat) (s : Storage) (hdev : (devices unit).isSome = true) :
    (dispatchPDU devices 16 data unit s).1 = some [144, 1] ∧
    ∀ u a, hrGet (dispatchPDU devices 16 data unit s).2 u a = hrGet s u a := by
  constructor
  · simp [dispatchPDU, hdev, handleModbusFunction, exceptionPDU, packU8]
  · intro u a
    simp only [dispatchPDU, hdev, if_true, handleModbusFunction]
    norm_num [hrGet_ensureUnit]

/-- C5 witness for the amended theorem. -/
theorem fc16_illegal_function_witness :
    (dispatchPDU devices1 16 [0, 0, 0, 2, 4, 0, 5, 0, 6] 1 mbEmpty).1 = some [144, 1] ∧
    ∀ u a, hrGet (dispatchPDU devices1 16 [0, 0, 0, 2, 4, 0, 5, 0, 6] 1 mbEmpty).2 u a =
      hrGet mbEmpty u a :=
  fc16_illegal_function devices1 [0, 0, 0, 2, 4, 0, 5, 0, 6] 1 mbEmpty rfl

/-- C9 counterexample.  With value 5 stored at input register 0 of unit 1 by
the simulator, an FC4 (Read Input Registers) request for that register
returns data bytes `[0, 0]`, not the stored value 5: the handler ignores the
input-register image entirely. -/
theorem fc4_ignores_input_registers_counterexample :
    (dispatchPDU devices1 4 [0, 0, 0, 1] 1 irStorage).1 = some [4, 2, 0, 0] ∧
    irGet irStorage 1 0 = 5 ∧
    ([4, 2, 0, 0] : List Nat) ≠ [4, 2, 0, 5] :=
  ⟨rfl, rfl, by decide⟩

/-- C9 amended.  For every FC4 request of quantity `q` (well-formed body,
`2 q` within a byte), the response is byte-count `2 q` followed by `q` zero
registers, regardless of the contents of the device's input-register image. -/
theorem fc4_always_zero (devices : Nat → Option Device) (unit : Nat) (s : Storage)
    (b0 b1 q0 q1 : Nat) (rest : List Nat) (hdev : (devices unit).isSome = true)
    (hq : u16 q0 q1 * 2 < 256) :
    (dispatchPDU devices 4 (b0 :: b1 :: q0 :: q1 :: rest) unit s).1 =
      some (4 :: (u16 q0 q1 * 2) ::
        (List.replicate (u16 q0 q1) ([0, 0] : List Nat)).flatten) := by
  simp only [dispatchPDU, hdev, if_true, handleModbusFunction]
  norm_num [List.getD, packU8, hq]

/-- C9 witness for the amended theorem. -/
theorem fc4_always_zero_witness :
    (dispatchPDU devices1 4 (0 :: 0 :: 0 :: 3 :: []) 1 irStorage).1 =
      some (4 :: (u16 0 3 * 2) ::
        (List.replicate (u16 0 3) ([0, 0] : List Nat)).flatten) :=
  fc4_always_zero devices1 1 irStorage 0 0 0 3 [] rfl (by norm_num [u16])

end MB

namespace AgentStart

/-- Every PLC that `_start_plcs` actually starts is an S7 device: the Modbus
constructor call always raises, and only the `modbus`/`s7comm` branches append
to the list. -/
theorem startOne_tag (portOk : Bool) (d : PlcConf) (t : String)
    (h : startOne portOk d = some t) : t = "s7comm" := by
  unfold startOne at h
  by_cases hd : d.ptype = "modbus"
  · rw [if_pos hd] at h
    have hkw : kwargsAccepted modbusInitParams agentModbusKwargs = false := by decide
    rw [hkw] at h
    simp at h
  · rw [if_neg hd] at h
    by_cases hs : d.ptype = "s7comm"
    · rw [if_pos hs] at h
      cases hpk : kwargsAccepted s7InitParams agentS7Kwargs && portOk with
      | false => rw [hpk] at h; simp at h
      | true => rw [hpk] at h; simp at h; exact h.symm
    · rw [if_neg hs] at h; simp at h

theorem startPlcs_tags (env : Nat → Bool) :
    ∀ confs i, ∀ t ∈ (startPlcs env confs i).1, t = "s7comm" := by
  intro confs
  induction confs with
  | nil => intro i t ht; simp [startPlcs] at ht
  | cons d ds ih =>
    intro i t ht
    simp only [startPlcs] at ht
    by_cases hde : d.enabled = true
    · rw [if_pos hde] at ht
      cases hso : startOne (env i) d with
      | none => simp only [hso] at ht; exact ih (i + 1) t ht
      | some tag =>
        simp only [hso] at ht
        rcases List.mem_cons.mp ht with rfl | ht'
        · exact startOne_tag (env i) d t hso
        · exact ih (i + 1) t ht'
    · rw [if_neg hde] at ht; exact ih (i + 1) t ht

/-- C2.  The agent's start path calls the `ModbusPLC` constructor with keyword
arguments (`vendor`, `revision`, `simulation_config`) that
`ModbusPLC.__init__` does not accept, so the call raises `TypeError`: for
every configuration, an enabled `modbus` entry never contributes a device to
the running PLC list (no started PLC is ever tagged `modbus`), and the attempt
counts as a failed start (it increments `total_enabled` but never
`success_count`). -/
theorem modbus_start_always_fails (env : Nat → Bool) (c : PlcConf)
    (hen : c.enabled = true) (hty : c.ptype = "modbus") :
    kwargsAccepted modbusInitParams agentModbusKwargs = false ∧
    (∀ portOk, startOne portOk c = none) ∧
    (∀ confs i, ∀ t ∈ (startPlcs env confs i).1, t ≠ "modbus") ∧
    (∀ confs i, (startPlcs env (c :: confs) i).2.1 = (startPlcs env confs (i + 1)).2.1 ∧
                (startPlcs env (c :: confs) i).2.2 = (startPlcs env confs (i + 1)).2.2 + 1) := by
  have hkw : kwargsAccepted modbusInitParams agentModbusKwargs = false := by decide
  have hone : ∀ portOk, startOne portOk c = none := by
    intro portOk
    simp [startOne, hty, hkw]
  refine ⟨hkw, hone, ?_, ?_⟩
  · intro confs i t ht
    have := startPlcs_tags env confs i t ht
    subst this
    decide
  · intro confs i
    simp [startPlcs, hen, hone (env i)]

/-- C2 witness: a concrete enabled `modbus` entry. -/
theorem modbus_start_always_fails_witness :
    kwargsAccepted modbusInitParams agentModbusKwargs = false ∧
    (∀ portOk, startOne portOk ⟨true, "modbus"⟩ = none) ∧
    (∀ confs i, ∀ t ∈ (startPlcs (fun _ => true) confs i).1, t ≠ "modbus") ∧
    (∀ confs i,
      (startPlcs (fun _ => true) (⟨true, "modbus"⟩ :: confs) i).2.1 =
        (startPlcs (fun _ => true) confs (i + 1)).2.1 ∧
      (startPlcs (fun _ => true) (⟨true, "modbus"⟩ :: confs) i).2.2 =
        (startPlcs (fun _ => true) confs (i + 1)).2.2 + 1) :=
  modbus_start_always_fails (fun _ => true) ⟨true, "modbus"⟩ rfl rfl

end AgentStart

namespace Sim

theorem genValue_static (env : String → Nat → Int) (c : SimCfg) (h : c.wave = "static") :
    genValue env c = none := by
  unfold genValue
  rw [h]
  rw [if_neg (by decide), if_pos rfl]

theorem updF_ne {α : Type} (f : Nat → Option α) (k a : Nat) (v : α) (h : a ≠ k) :
    updF f k v a = f a := by
  simp [updF, h]

theorem writeRegs_outside (a : Nat) :
    ∀ (vals : List Int) (hr : HReg) (addr : Nat),
      (a < addr ∨ addr + vals.length ≤ a) → writeRegs hr addr vals a = hr a := by
  intro vals
  induction vals with
  | nil => intro hr addr _; rfl
  | cons v vs ih =>
    intro hr addr h
    show writeRegs (updF hr addr v) (addr + 1) vs a = hr a
    rw [ih (updF hr addr v) (addr + 1) (by simp at h ⊢; omega)]
    exact updF_ne hr addr a v (by simp at h; omega)

theorem encodeStringRegs_length (t : String) (len : Nat) :
    (encodeStringRegs t len).length = len := by
  simp [encodeStringRegs]

theorem processHR_outside (env : String → Nat → Int) (encF32 : Int → Int × Int)
    (hr : HReg) (c : SimCfg) (a : Nat) (ha : ¬ writesWithin c a) :
    processHR env encF32 hr c a = hr a := by
  have hne : a ≠ c.addr := fun h => ha (Or.inl h)
  unfold processHR
  cases hgen : genValue env c with
  | none =>
    by_cases hs : (hr c.addr).isSome
    · simp [hs]
    · simp only [hs, Bool.false_eq_true, if_neg, ite_false]
      exact updF_ne hr c.addr a c.min hne
  | some v =>
    by_cases hf : c.type? = some "float32"
    · have hne1 : a ≠ c.addr + 1 := fun h => ha (Or.inr (Or.inl ⟨hf, h⟩))
      simp only [hf, if_pos]
      rw [updF_ne _ _ _ _ hne1, updF_ne _ _ _ _ hne]
    · by_cases hstr : c.type? = some "string"
      · simp only [hf, hstr, if_neg, if_pos, ite_false, ite_true]
        refine writeRegs_outside a _ hr c.addr ?_
        rw [encodeStringRegs_length]
        rcases Nat.lt_or_ge a c.addr with h | h
        · exact Or.inl h
        · refine Or.inr ?_
          by_contra hlt
          exact ha (Or.inr (Or.inr ⟨hstr, h, by omega⟩))
      · simp only [hf, hstr, ite_false]
        exact updF_ne hr c.addr a v hne

theorem loopHR_keep (env : String → Nat → Int) (encF32 : Int → Int × Int) (a : Nat) :
    ∀ (cfgs : List SimCfg) (hr : HReg),
      (∀ c ∈ cfgs, writesWithin c a → (c.wave = "static" ∧ c.addr = a)) →
      (hr a).isSome = true → loopHR env encF32 cfgs hr a = hr a := by
  intro cfgs
  induction cfgs with
  | nil => intro hr _ _; rfl
  | cons c cs ih =>
    intro hr hcov hs
    show loopHR env encF32 cs (processHR env encF32 hr c) a = hr a
    by_cases hw : writesWithin c a
    · obtain ⟨hcst, hcaddr⟩ := hcov c (List.mem_cons_self c cs) hw
      have hp : processHR env encF32 hr c = hr := by
        unfold processHR
        rw [genValue_static env c hcst, hcaddr]
        simp [hs]
      rw [hp]
      exact ih hr (fun c' hm hw' => hcov c' (List.mem_cons_of_mem c hm) hw') hs
    · have hp : processHR env encF32 hr c a = hr a := processHR_outside env encF32 hr c a hw
      rw [ih (processHR env encF32 hr c)
            (fun c' hm hw' => hcov c' (List.mem_cons_of_mem c hm) hw') (by rw [hp]; exact hs)]
      exact hp

theorem loopHR_static_init (env : String → Nat → Int) (encF32 : Int → Int × Int)
    (cfg : SimCfg) (hst : cfg.wave = "static") :
    ∀ (cfgs : List SimCfg) (hr : HReg), cfg ∈ cfgs →
      (∀ c ∈ cfgs, writesWithin c cfg.addr → c = cfg) →
      loopHR env encF32 cfgs hr cfg.addr = some ((hr cfg.addr).getD cfg.min) := by
  intro cfgs
  induction cfgs with
  | nil => intro hr hmem; cases hmem
  | cons c cs ih =>
    intro hr hmem hcov
    show loopHR env encF32 cs (processHR env encF32 hr c) cfg.addr = _
    by_cases hw : writesWithin c cfg.addr
    · have hceq : c = cfg := hcov c (List.mem_cons_self c cs) hw
      have h1 : processHR env encF32 hr c cfg.addr = some ((hr cfg.addr).getD cfg.min) := by
        unfold processHR
        rw [hceq, genValue_static env cfg hst]
        by_cases hs : (hr cfg.addr).isSome
        · obtain ⟨x, hx⟩ := Option.isSome_iff_exists.mp hs
          simp [hs, hx]
        · have hx : hr cfg.addr = none := Option.not_isSome_iff_eq_none.mp (by simpa using hs)
          simp [hs, updF, hx]
      rw [loopHR_keep env encF32 cfg.addr cs (processHR env encF32 hr c)
            (fun c' hm hw' => by
              have hc' := hcov c' (List.mem_cons_of_mem c hm) hw'
              exact ⟨by rw [hc']; exact hst, by rw [hc']⟩)
            (by rw [h1]; rfl), h1]
    · have hmem' : cfg ∈ cs := by
        rcases List.mem_cons.mp hmem with rfl | h
        · exact absurd (Or.inl rfl) hw
        · exact h
      have hout : processHR env encF32 hr c cfg.addr = hr cfg.addr :=
        processHR_outside env encF32 hr c cfg.addr hw
      rw [ih (processHR env encF32 hr c) hmem'
            (fun c' hm hw' => hcov c' (List.mem_cons_of_mem c hm) hw'), hout]

/-- C6 counterexample.  With `static` entries declared at addresses 5000, 3200
and 3201 (a PM5300-style profile), an attacker writes command code 2020 into
register 5000 and value 7 into register 3200; the next simulation tick
*changes* the stored values of the static cells 3200 (7 → 0) and 5000
(2020 → 0) through the PM5300 post-hook, so a tick does not leave every
static cell unchanged. -/
theorem pm5300_overwrites_static_counterexample :
    ({ addr := 3200, wave := "static" } : SimCfg) ∈ pmCfgs ∧
    pmHr 3200 = some 7 ∧
    updateStorageHR envZero encF32Zero ctDiffFalse ctScaleId pmCfgs pmHr noCoils 3200 = some 0 ∧
    updateStorageHR envZero encF32Zero ctDiffFalse ctScaleId pmCfgs pmHr noCoils 5000 = some 0 ∧
    (some (0 : Int)) ≠ some 7 :=
  ⟨by decide, rfl, rfl, rfl, by decide⟩

/-- C6 amended.  For every holding-register entry whose waveform is `static`,
a simulation tick leaves the currently stored cell value unchanged, and
initializes a missing cell to the entry's declared initial value (its `min`
field, 0 when absent) — provided no other entry's write span covers the
static entry's address and the configuration does not declare address 5000
(which would run the PM5300 post-hook, free to overwrite the cell). -/
theorem static_entry_preserved (env : String → Nat → Int) (encF32 : Int → Int × Int)
    (ctDiff : Int → Int → Bool) (ctScale : HReg → HReg)
    (cfgs : List SimCfg) (cfg : SimCfg) (hr : HReg) (coils : CoilMap)
    (hmem : cfg ∈ cfgs) (hst : cfg.wave = "static")
    (hcov : ∀ c ∈ cfgs, writesWithin c cfg.addr → c = cfg)
    (hnopm : ∀ c ∈ cfgs, c.addr ≠ 5000) :
    updateStorageHR env encF32 ctDiff ctScale cfgs hr coils cfg.addr
      = some ((hr cfg.addr).getD cfg.min) := by
  have hany : cfgs.any (fun c => c.addr = 5000) = false := by
    rw [List.any_eq_false]
    intro c hc
    simpa using hnopm c hc
  unfold updateStorageHR
  rw [hany]
  simp only [Bool.false_eq_true, ite_false]
  exact loopHR_static_init env encF32 cfg hst cfgs hr hmem hcov

/-- C6 witness: a config with one static entry at address 3 (declared
`min` 5) next to a fixed entry at address 0; with 42 already stored at
address 3 the tick keeps it. -/
theorem static_entry_preserved_witness :
    updateStorageHR envZero encF32Zero ctDiffFalse ctScaleId
      [{ addr := 3, wave := "static", min := 5 }, { addr := 0, wave := "fixed", value := 7 }]
      (fun a => if a = 3 then some 42 else none) noCoils 3 = some 42 := by
  have h := static_entry_preserved envZero encF32Zero ctDiffFalse ctScaleId
    [{ addr := 3, wave := "static", min := 5 }, { addr := 0, wave := "fixed", value := 7 }]
    { addr := 3, wave := "static", min := 5 }
    (fun a => if a = 3 then some 42 else none) noCoils
    (by decide) rfl (by decide) (by decide)
  simpa using h

end Sim

namespace S7

/-- C8.  The model profiles allow slot 2 for S7-300 and slot 1 for
S7-1200/S7-1500; a COTP Connection Request whose Called-TSAP (parameter code
0xC2) second byte encodes, in its lower 5 bits, a slot outside the device
profile's allowed set is answered with a COTP Disconnect Request
(PDU type 0x80) that echoes the client's source reference with disconnect
reason 0x01, logged with `s7.action = "reject_connection"`, and the socket is
closed. -/
theorem invalid_slot_rejected (profile : S7Profile)
    (dst0 dst1 sr0 sr1 cls t0 t1 : Nat)
    (hslot : profile.validSlots.contains (t1 &&& 31) = false) :
    profileS7_300.validSlots = [2] ∧ profileS7_1200.validSlots = [1] ∧
    profileS7_1500.validSlots = [1] ∧
    handleCR profile [10, 224, dst0, dst1, sr0, sr1, cls, 194, 2, t0, t1] =
      { response := [3, 0, 0, 11, 6, 128, sr0, sr1, 0, 0, 1],
        action := some "reject_connection", closed := true } := by
  refine ⟨rfl, rfl, rfl, ?_⟩
  have hslot' : t1 &&& 31 ∉ profile.validSlots := by
    simpa using hslot
  simp [handleCR, paramScan, List.getD, hslot']

/-- C8 witness: a CR requesting slot 1 from an S7-300. -/
theorem invalid_slot_rejected_witness :
    profileS7_300.validSlots = [2] ∧ profileS7_1200.validSlots = [1] ∧
    profileS7_1500.validSlots = [1] ∧
    handleCR (profileFor "S7-300") [10, 224, 0, 0, 9, 9, 0, 194, 2, 1, 1] =
      { response := [3, 0, 0, 11, 6, 128, 9, 9, 0, 0, 1],
        action := some "reject_connection", closed := true } :=
  invalid_slot_rejected (profileFor "S7-300") 0 0 9 9 0 1 1 (by decide)

end S7

namespace S7

theorem readFixed_length (f : Nat → Nat) (start len : Nat) :
    (readFixed f start len).length = len := by
  unfold readFixed
  by_cases h : start + len ≤ 65536 <;> simp [h]

theorem readData_length (st : S7Storage) (area dbNum start len : Nat) :
    (readData st area dbNum start len).1.length = len := by
  unfold readData
  by_cases h84 : area = 132
  · simp only [h84, if_pos, ite_true]
    by_cases hle : start + len ≤ (ensureDB st dbNum (start + len)).2.length
    · simp [hle]; omega
    · simp [hle]
  · by_cases h83 : area = 131
    · simp [h84, h83, readFixed_length]
    · by_cases h81 : area = 129
      · simp [h84, h83, h81, readFixed_length]
      · by_cases h82 : area = 130
        · simp [h84, h83, h81, h82, readFixed_length]
        · simp [h84, h83, h81, h82]

/-- C3 counterexample.  A Read-Variable Job with item-count 2 (two identical
one-byte DB1 items) is answered with a single response data item and an
Ack-Data parameter of `{0x04, 0x01}` — the item-count byte of the reply is 1,
not the requested 2, and no second data item is appended. -/
theorem readvar_two_items_counterexample :
    (handleReadVar S7Storage.empty twoItemJob).1 =
      some [3, 0, 0, 26, 2, 240, 128, 50, 3, 0, 0, 0, 0, 0, 2, 0, 5, 0, 0, 4, 1,
            255, 4, 0, 8, 0] ∧
    twoItemJob.getD 11 0 = 2 ∧
    ([3, 0, 0, 26, 2, 240, 128, 50, 3, 0, 0, 0, 0, 0, 2, 0, 5, 0, 0, 4, 1,
      255, 4, 0, 8, 0] : List Nat).getD 20 0 = 1 ∧
    (1 : Nat) ≠ 2 :=
  ⟨rfl, rfl, rfl, by decide⟩

/-- C3 amended.  For every Read-Variable Job with item-count `n ≥ 1`, the
emulator parses only the *first* item: it computes that item's byte length
from its transport type (bit → ceil(len/8), byte → len, word → 2·len,
otherwise len), reads that many bytes from the memory image, and replies
Ack-Data containing a single response data item
`{0xFF, 0x03 for bit / 0x04 otherwise, length in bits (u16), data}` whose
parameter is `{0x04, 0x01}` regardless of `n`. -/
theorem readvar_first_item_only (st : S7Storage)
    (r0 r1 n transport l0 l1 d0 d1 area a0 a1 a2 : Nat) (rest : List Nat)
    (hn : 1 ≤ n) (_hrest : 14 + rest.length < 65536)
    (hbits : dataLenBytes transport (u16 l0 l1) * 8 < 65536) :
    (handleReadVar st
        ([50, 1, 0, 0, r0, r1, (14 + rest.length) / 256, (14 + rest.length) % 256, 0, 0,
          4, n, 18, 10, 16, transport, l0, l1, d0, d1, area, a0, a1, a2] ++ rest)).1 =
      some ([3, 0, (25 + dataLenBytes transport (u16 l0 l1)) / 256,
             (25 + dataLenBytes transport (u16 l0 l1)) % 256, 2, 240, 128,
             50, 3, 0, 0, r0, r1, 0, 2,
             (4 + dataLenBytes transport (u16 l0 l1)) / 256,
             (4 + dataLenBytes transport (u16 l0 l1)) % 256, 0, 0, 4, 1, 255]
        ++ [if transport = 1 then 3 else 4]
        ++ [dataLenBytes transport (u16 l0 l1) * 8 / 256,
            dataLenBytes transport (u16 l0 l1) * 8 % 256]
        ++ (readData st area (u16 d0 d1)
              ((a0 * 65536 + a1 * 256 + a2) / 8) (dataLenBytes transport (u16 l0 l1))).1) := by
  have hu : u16 ((14 + rest.length) / 256) ((14 + rest.length) % 256) = 14 + rest.length :=
    u16_split _
  have htake : List.take (14 + rest.length)
      (4 :: n :: 18 :: 10 :: 16 :: transport :: l0 :: l1 :: d0 :: d1 ::
        area :: a0 :: a1 :: a2 :: rest)
      = 4 :: n :: 18 :: 10 :: 16 :: transport :: l0 :: l1 :: d0 :: d1 ::
        area :: a0 :: a1 :: a2 :: rest :=
    List.take_of_length_le (by simp only [List.length_cons]; omega)
  simp only [handleReadVar]
  simp [hu, htake, hn, packU16, hbits, readData_length]
  split
  · simp only [Option.some_bind]
    simp only [List.length_cons, List.length_nil]
    split
    · simp [List.cons.injEq]
      omega
    · exfalso; omega
  · exfalso; omega

/-- C3 witness: a one-item Read-Variable Job for one byte of DB1 at offset 0
against the fresh image. -/
theorem readvar_first_item_only_witness :
    (handleReadVar S7Storage.empty
        [50, 1, 0, 0, 0, 0, 0, 14, 0, 0, 4, 1, 18, 10, 16, 2, 0, 1, 0, 1, 132, 0, 0, 0]).1 =
      some [3, 0, 0, 26, 2, 240, 128, 50, 3, 0, 0, 0, 0, 0, 2, 0, 5, 0, 0, 4, 1,
            255, 4, 0, 8, 0] := by
  have h := readvar_first_item_only S7Storage.empty 0 0 1 2 0 1 0 1 132 0 0 0 []
    (by norm_num) (by norm_num) (by norm_num [dataLenBytes, u16])
  exact h.trans (by decide)

end S7

namespace Server

theorem getAgent_updateHeartbeat_self (dbase : List AgentRow) (nid : String) (now : Nat) :
    getAgent (updateHeartbeat dbase nid now) nid =
      (getAgent dbase nid).map (fun a =>
        { a with last_heartbeat := now, status := "Online" }) := by
  induction dbase with
  | nil => rfl
  | cons a as ih =>
    simp only [getAgent, updateHeartbeat, List.map_cons, List.find?_cons] at ih ⊢
    by_cases hx : (a.node_id == nid) = true
    · simp [hx]
    · have hx' : (a.node_id == nid) = false := by simpa using hx
      simp only [hx', Bool.false_eq_true, ite_false]
      exact ih

theorem isActive_updateHeartbeat (dbase : List AgentRow) (nid : String) (now : Nat)
    (nid' : String) :
    (getAgent (updateHeartbeat dbase nid now) nid').map (fun r => r.is_active)
      = (getAgent dbase nid').map (fun r => r.is_active) := by
  induction dbase with
  | nil => rfl
  | cons a as ih =>
    simp only [getAgent, updateHeartbeat, List.map_cons, List.find?_cons] at ih ⊢
    by_cases hx : (a.node_id == nid) = true
    · simp only [hx, ite_true]
      by_cases hf : (a.node_id == nid') = true
      · simp [hf]
      · have hf' : (a.node_id == nid') = false := by simpa using hf
        simp only [hf']
        exact ih
    · have hx' : (a.node_id == nid) = false := by simpa using hx
      simp only [hx', Bool.false_eq_true, ite_false]
      by_cases hf : (a.node_id == nid') = true
      · simp [hf]
      · have hf' : (a.node_id == nid') = false := by simpa using hf
        simp only [hf']
        exact ih

theorem getAgent_registerAgent_self (dbase : List AgentRow) (nid nm ip : String)
    (now : Nat) (config : AgentConf) :
    getAgent (registerAgent dbase nid nm ip now config) nid =
      some ⟨nid, nm, ip, now, "Online", config,
        match getAgent dbase nid with
        | some a => a.is_active
        | none => 0⟩ := by
  unfold registerAgent getAgent
  rw [List.find?_append]
  have hnone : (dbase.filter (fun a => a.node_id != nid)).find?
      (fun a => a.node_id == nid) = none := by
    rw [List.find?_eq_none]
    intro x hx
    have := List.of_mem_filter hx
    simpa using this
  rw [hnone]
  simp [getAgent]

theorem find?_filter_ne (dbase : List AgentRow) (nid nid' : String) (h : nid' ≠ nid) :
    (dbase.filter (fun a => a.node_id != nid)).find? (fun a => a.node_id == nid')
      = dbase.find? (fun a => a.node_id == nid') := by
  induction dbase with
  | nil => rfl
  | cons a as ih =>
    by_cases hq : a.node_id == nid
    · have hq' : (a.node_id != nid) = false := by simpa using hq
      have hp : (a.node_id == nid') = false := by
        have ha : a.node_id = nid := by simpa using hq
        simp [ha, Ne.symm h]
      simp only [List.filter, hq', List.find?_cons, hp]
      exact ih
    · have hq' : (a.node_id != nid) = true := by simpa using hq
      simp only [List.filter, hq', List.find?_cons]
      by_cases hp : a.node_id == nid'
      · simp [hp]
      · simp only [hp]
        exact ih

theorem getAgent_registerAgent_other (dbase : List AgentRow) (nid nm ip : String)
    (now : Nat) (config : AgentConf) (nid' : String) (h : nid' ≠ nid) :
    getAgent (registerAgent dbase nid nm ip now config) nid' = getAgent dbase nid' := by
  unfold registerAgent getAgent
  rw [List.find?_append, find?_filter_ne dbase nid nid' h]
  have hsingle : ∀ row : AgentRow, (row.node_id == nid') = false →
      (([row] : List AgentRow).find? (fun a => a.node_id == nid')) = none := by
    intro row hrow
    simp [List.find?_cons, hrow]
  rw [hsingle _ (by simp [Ne.symm h]), Option.or_none]

/-- C7 counterexample.  A stored agent `X` with no devices configured and
active flag 1 receives a heartbeat carrying a non-empty device list; the
server answers `ok/start` but the stored config still has no devices — the
heartbeat handler for a known node_id never adopts the client's config. -/
theorem heartbeat_no_config_adoption_counterexample :
    (heartbeat [rowX] 5 hbX).1 = { status := "ok", command := "start", new_node_id := none } ∧
    rowX.config.plcs = [] ∧
    hbX.config = some { node_id := "X", plcs := [7] } ∧
    (getAgent (heartbeat [rowX] 5 hbX).2 "X").map (fun a => a.config.plcs) = some [] ∧
    (some ([] : List Nat)) ≠ some [7] :=
  ⟨rfl, rfl, rfl, rfl, by decide⟩

/-- C7 amended.  For every heartbeat whose node_id is already registered, the
server updates that agent's last-seen timestamp (and status), returns command
`stop` iff the agent's active flag is 0 and `start` otherwise — and leaves
the stored record otherwise unchanged: in particular the stored config is
never replaced by the heartbeat's config, devices or no devices. -/
theorem heartbeat_known_node (dbase : List AgentRow) (now : Nat) (hb : HB) (a : AgentRow)
    (ha : getAgent dbase hb.node_id = some a) :
    (heartbeat dbase now hb).1 =
      { status := "ok", command := if a.is_active = 0 then "stop" else "start",
        new_node_id := none } ∧
    getAgent (heartbeat dbase now hb).2 hb.node_id =
      some { a with last_heartbeat := now, status := "Online" } := by
  unfold heartbeat
  simp only [ha]
  constructor
  · trivial
  · rw [getAgent_updateHeartbeat_self, ha]
    rfl

/-- C7 witness for the amended theorem. -/
theorem heartbeat_known_node_witness :
    (heartbeat [rowX] 5 hbX).1 =
      { status := "ok", command := if rowX.is_active = 0 then "stop" else "start",
        new_node_id := none } ∧
    getAgent (heartbeat [rowX] 5 hbX).2 hbX.node_id =
      some { rowX with last_heartbeat := 5, status := "Online" } :=
  heartbeat_known_node [rowX] 5 hbX rowX rfl

/-- C10.  An agent auto-registered through an unknown-node_id heartbeat (no
adoption match) is stored with active flag 0 although the registration
response says `start`; every heartbeat from a node whose stored active flag
is 0 is answered `stop`; and no heartbeat ever changes any stored agent's
active flag — so the `stop` answers persist until an operator toggles the
flag. -/
theorem autoregistered_inactive (dbase : List AgentRow) (now : Nat) (hb : HB)
    (hnew : getAgent dbase hb.node_id = none)
    (hadopt : dbase.find? (fun a => a.config.original_id == some hb.node_id) = none) :
    (heartbeat dbase now hb).1 =
      { status := "registered", command := "start", new_node_id := none } ∧
    (getAgent (heartbeat dbase now hb).2 hb.node_id).map (fun r => r.is_active) = some 0 ∧
    (∀ dbase' now' hb' a', getAgent dbase' hb'.node_id = some a' → a'.is_active = 0 →
        (heartbeat dbase' now' hb' : HBResp × List AgentRow).1.command = "stop") ∧
    (∀ dbase' now' hb' nid a', getAgent dbase' nid = some a' →
        (getAgent (heartbeat dbase' now' hb' : HBResp × List AgentRow).2 nid).map
            (fun r => r.is_active) = some a'.is_active) := by
  refine ⟨?_, ?_, ?_, ?_⟩
  · unfold heartbeat
    simp only [hnew, hadopt]
  · unfold heartbeat
    simp only [hnew, hadopt]
    rw [getAgent_registerAgent_self]
    simp only [hnew]
    rfl
  · intro dbase' now' hb' a' ha hact
    unfold heartbeat
    simp only [ha]
    simp [hact]
  · intro dbase' now' hb' nid a' ha
    unfold heartbeat
    cases hk : getAgent dbase' hb'.node_id with
    | some b =>
      simp only [hk]
      rw [isActive_updateHeartbeat, ha]
      rfl
    | none =>
      cases had : dbase'.find? (fun a => a.config.original_id == some hb'.node_id) with
      | some adopted =>
        simp only [hk, had]
        rw [ha]
        rfl
      | none =>
        simp only [hk, had]
        have hne : nid ≠ hb'.node_id := by
          intro he
          rw [he, hk] at ha
          cases ha
        rw [getAgent_registerAgent_other _ _ _ _ _ _ _ hne, ha]
        rfl

/-- C10 witness: registering node `N` into an empty registry. -/
theorem autoregistered_inactive_witness :
    (heartbeat [] 5 ⟨"N", "10.0.0.2", "n", none⟩).1 =
      { status := "registered", command := "start", new_node_id := none } ∧
    (getAgent (heartbeat [] 5 ⟨"N", "10.0.0.2", "n", none⟩).2 "N").map
        (fun r => r.is_active) = some 0 ∧
    (∀ dbase' now' hb' a', getAgent dbase' hb'.node_id = some a' → a'.is_active = 0 →
        (heartbeat dbase' now' hb' : HBResp × List AgentRow).1.command = "stop") ∧
    (∀ dbase' now' hb' nid a', getAgent dbase' nid = some a' →
        (getAgent (heartbeat dbase' now' hb' : HBResp × List AgentRow).2 nid).map
            (fun r => r.is_active) = some a'.is_active) :=
  autoregistered_inactive [] 5 ⟨"N", "10.0.0.2", "n", none⟩ rfl rfl

end Server
